import Mathlib

/-!
# Verification of the stock-quote HTTP handler

Shallow embedding of `src/azure/modules/function_app/app/stock_quote/__init__.py`
(the function `main`).  Strings are modelled by Lean `String`s; Python string
splitting on a single-character separator, upper-casing and `str.isalpha` are
re-implemented structurally over the underlying character list (alphabetic is
the ASCII letter predicate).  Prices are modelled by `ℚ`; Python's `round(x, 2)`
is round-half-to-even in units of hundredths, computed on numerator and
denominator.  `json.dumps` of the two response dictionaries is abstracted to
the structured payload `Body` (on which it is injective).  The external
`yfinance` call is a parameter: it either raises (with an error message) or
returns an info dictionary whose numeric fields `currentPrice` /
`regularMarketPrice` may be absent.  The wall clock is a parameter supplying
the formatted date and the Unix timestamp.
-/

namespace StockQuote

/-- An inbound HTTP request: the query parameters (`req.params`) and the raw
request URL (`req.url`). -/
structure HttpRequest where
  params : List (String × String)
  url : String
deriving DecidableEq, Repr

/-- The JSON body of a response produced by the handler: either the success
payload `{"date": ..., "price": ..., "symbol": ..., "time": ...}` or an error
payload `{"error": msg}`. -/
inductive Body where
  | quote (date : String) (price : ℚ) (symbol : String) (time : ℤ)
  | error (msg : String)
deriving DecidableEq, Repr

/-- `func.HttpResponse(body, status_code=..., mimetype=...)`. -/
structure HttpResponse where
  body : Body
  status_code : ℕ
  mimetype : String
deriving DecidableEq, Repr

/-- The provider's info dictionary, restricted to the two fields the handler
reads; `none` models an absent key (`dict.get` returning `None`). -/
structure TickerInfo where
  currentPrice : Option ℚ
  regularMarketPrice : Option ℚ
deriving DecidableEq, Repr

/-- The external quote provider (`yf.Ticker(symbol).info`): either raises an
exception carrying a message, or returns an info dictionary. -/
def Provider := String → Except String TickerInfo

/-- Wall-clock readings used by the handler: `datetime.now().strftime("%Y-%m-%d")`
and `int(datetime.now().timestamp())`. -/
structure Clock where
  date : String
  time : ℤ
deriving DecidableEq, Repr

/-- Python truthiness of the `symbol` variable (`if not symbol:`): `None` and
the empty string are falsy. -/
def pyTruthy : Option String → Bool
  | none => false
  | some s => !s.data.isEmpty

/-- Python `str.split(sep)` for a single-character separator, over the
character list. -/
def pySplit (sep : Char) : List Char → List (List Char)
  | [] => [[]]
  | c :: rest =>
    match pySplit sep rest with
    | [] => [[]]
    | g :: gs => if c = sep then [] :: g :: gs else (c :: g) :: gs

/-- Python `str.isalpha()`: non-empty and every character alphabetic. -/
def pyIsAlpha (l : List Char) : Bool :=
  !l.isEmpty && l.all Char.isAlpha

/-- Python `str.upper()`. -/
def pyUpper (s : String) : String :=
  String.mk (s.data.map Char.toUpper)

/-- `req.params.get('symbol')`: first binding of the key, if any. -/
def getParam (req : HttpRequest) (k : String) : Option String :=
  (req.params.find? (fun p => p.1 == k)).map Prod.snd

/-- Lines 18-31 of the handler: the value of the `symbol` variable after query
parameter lookup and the URL-path fallback. -/
def resolveSymbol (req : HttpRequest) : Option String :=
  let symbol := getParam req "symbol"
  if pyTruthy symbol then symbol
  else
    let url_parts := pySplit '/' req.url.data
    if url_parts.length > 0 then
      let potential := url_parts.getLastD []
      let potential := ((pySplit '?' potential).headD [])
      if !potential.isEmpty && pyIsAlpha potential && potential.length ≤ 5 then
        some (String.mk potential)
      else symbol
    else symbol

/-- Python `x or y` for the two optional price fields: returns the first
operand when it is truthy (present and nonzero), otherwise the second. -/
def pyOrPrice : Option ℚ → Option ℚ → Option ℚ
  | some v, b => if v = 0 then b else some v
  | none, b => b

/-- The number of hundredths in Python `round(x, 2)`: round half to even,
computed on the numerator and denominator of `x`. -/
def roundCents (x : ℚ) : ℤ :=
  let n : ℤ := x.num * 100
  let d : ℤ := (x.den : ℤ)
  let f : ℤ := Int.fdiv n d
  let r2 : ℤ := 2 * (n - f * d)
  if r2 < d then f
  else if r2 > d then f + 1
  else if f % 2 = 0 then f else f + 1

/-- Python `round(x, 2)`. -/
def round2 (x : ℚ) : ℚ := mkRat (roundCents x) 100

/-- Exact body of the HTTP 400 response (line 35). -/
def missingSymbolBody : Body :=
  .error "Stock symbol parameter is required. Use ?symbol=AAPL or /stock_quote/AAPL"

/-- Exact body of the HTTP 500 response (line 80). -/
def internalErrorBody : Body :=
  .error "Internal server error occurred"

/-- Exact body of the HTTP 404 response (line 52), with the symbol
interpolated. -/
def notFoundBody (symbol : String) : Body :=
  .error ("Could not retrieve price for symbol " ++ symbol)

/-- Lines 44-83 of the handler: everything after the symbol has been resolved
and upper-cased, including the `except` clause mapping a raised exception to
HTTP 500. -/
def quoteFor (symbol : String) (provider : Provider) (clock : Clock) : HttpResponse :=
  match provider symbol with
  | .error _ => ⟨internalErrorBody, 500, "application/json"⟩
  | .ok info =>
    match pyOrPrice info.currentPrice info.regularMarketPrice with
    | none => ⟨notFoundBody symbol, 404, "application/json"⟩
    | some current_price =>
      ⟨.quote clock.date (round2 current_price) symbol clock.time, 200, "application/json"⟩

/-- The handler `main(req)`, with the provider and the wall clock passed as
explicit collaborators. -/
def main (req : HttpRequest) (provider : Provider) (clock : Clock) : HttpResponse :=
  let symbol := resolveSymbol req
  if pyTruthy symbol then quoteFor (pyUpper (symbol.getD "")) provider clock
  else ⟨missingSymbolBody, 400, "application/json"⟩

/-- The candidate final path segment of a URL: last component after splitting
on `/`, with any trailing query string stripped. -/
def pathSeg (url : String) : String :=
  String.mk ((pySplit '?' ((pySplit '/' url.data).getLastD [])).headD [])

/-- Whether the candidate final path segment passes the line-30 check. -/
def acceptsPathSeg (url : String) : Bool :=
  let p := (pathSeg url).data
  !p.isEmpty && pyIsAlpha p && p.length ≤ 5

/-- A fixed provider used to instantiate universally quantified theorems. -/
def testProvider : Provider := fun _ => .ok ⟨some 10, none⟩

/-- A fixed clock used to instantiate universally quantified theorems. -/
def testClock : Clock := ⟨"2026-01-01", 100⟩

/-- A provider that always raises, carrying the given message. -/
def raisingProvider (msg : String) : Provider := fun _ => .error msg

/-- A provider that always returns the given info dictionary. -/
def okProvider (info : TickerInfo) : Provider := fun _ => .ok info

lemma string_ne_empty_iff (s : String) : s ≠ "" ↔ s.data ≠ [] := by
  constructor
  · intro h hd
    exact h (String.ext (hd.trans rfl))
  · intro h hs
    exact h (by rw [hs])

lemma pyTruthy_some_of_ne (s : String) (hs : s ≠ "") : pyTruthy (some s) = true := by
  have h : s.data ≠ [] := (string_ne_empty_iff s).mp hs
  simp [pyTruthy, List.isEmpty_iff, h]

lemma pySplit_ne_nil (sep : Char) (l : List Char) : pySplit sep l ≠ [] := by
  cases l with
  | nil => simp [pySplit]
  | cons c rest =>
    unfold pySplit
    cases pySplit sep rest with
    | nil => simp
    | cons g gs =>
      dsimp only
      split <;> simp

lemma resolveSymbol_query (req : HttpRequest) (v : String)
    (h : getParam req "symbol" = some v) (hv : v ≠ "") :
    resolveSymbol req = some v := by
  simp [resolveSymbol, h, pyTruthy_some_of_ne v hv]

lemma main_resolved (req : HttpRequest) (provider : Provider) (clock : Clock) (s : String)
    (h : resolveSymbol req = some s) (hs : s ≠ "") :
    main req provider clock = quoteFor (pyUpper s) provider clock := by
  simp [main, h, pyTruthy_some_of_ne s hs]

lemma resolveSymbol_no_query (req : HttpRequest)
    (h : pyTruthy (getParam req "symbol") = false) :
    resolveSymbol req =
      if acceptsPathSeg req.url then some (pathSeg req.url) else getParam req "symbol" := by
  have hne : pySplit '/' req.url.data ≠ [] := pySplit_ne_nil '/' req.url.data
  have hlen : 0 < (pySplit '/' req.url.data).length := List.length_pos.mpr hne
  simp only [resolveSymbol, h, Bool.false_eq_true, if_false, hlen, if_true, gt_iff_lt, if_pos]
  rfl

lemma acceptsPathSeg_iff (url : String) :
    acceptsPathSeg url = true ↔
      pathSeg url ≠ "" ∧ (pathSeg url).data.all Char.isAlpha = true ∧
        (pathSeg url).data.length ≤ 5 := by
  unfold acceptsPathSeg pyIsAlpha
  rw [string_ne_empty_iff]
  simp [List.isEmpty_iff, and_assoc]

example : resolveSymbol ⟨[("symbol", "")], "/api/stock_quote/MSFT"⟩ = some "MSFT" := by decide
example : resolveSymbol ⟨[("symbol", "aapl")], "u"⟩ = some "aapl" := by decide
example : round2 (mkRat 1423456 10000) = mkRat 14235 100 := by decide
example : main ⟨[], "/api/stock_quote/toolong"⟩ testProvider testClock =
    ⟨missingSymbolBody, 400, "application/json"⟩ := by decide
example : main ⟨[("symbol", "aapl")], "u"⟩ testProvider testClock =
    ⟨.quote "2026-01-01" 10 "AAPL" 100, 200, "application/json"⟩ := by decide

/-- C1 (counterexample): a request whose `symbol` query parameter is present
with the empty value, and whose URL ends in `MSFT`, resolves to the path
segment `MSFT` rather than to the present query-parameter value, so the
handler does not use the query parameter whenever one is present. -/
theorem c1_counterexample :
    getParam ⟨[("symbol", "")], "/api/stock_quote/MSFT"⟩ "symbol" = some "" ∧
    resolveSymbol ⟨[("symbol", "")], "/api/stock_quote/MSFT"⟩ ≠ some "" ∧
    resolveSymbol ⟨[("symbol", "")], "/api/stock_quote/MSFT"⟩ = some "MSFT" := by
  refine ⟨by decide, by decide, by decide⟩

/-- C1 (amended): symbol extraction is ordered with first match winning, where
a query parameter counts as a match only when its value is non-empty: when the
`symbol` query parameter is present with a non-empty value the handler uses
it, and only when it is absent or empty does it fall back to the final path
segment of the request URL (split on `/`, with any trailing query string
stripped). -/
theorem c1_theorem (req : HttpRequest) (provider : Provider) (clock : Clock) :
    (∀ v, getParam req "symbol" = some v → v ≠ "" →
      resolveSymbol req = some v ∧
        main req provider clock = quoteFor (pyUpper v) provider clock) ∧
    (pyTruthy (getParam req "symbol") = false →
      resolveSymbol req =
        if acceptsPathSeg req.url then some (pathSeg req.url) else getParam req "symbol") := by
  constructor
  · intro v h hv
    exact ⟨resolveSymbol_query req v h hv,
      main_resolved req provider clock v (resolveSymbol_query req v h hv) hv⟩
  · intro h
    exact resolveSymbol_no_query req h

/-- C1 (witness): instantiation of the amended theorem at a concrete request
carrying a non-empty query parameter. -/
theorem c1_witness :
    getParam ⟨[("symbol", "aapl")], "u"⟩ "symbol" = some "aapl" ∧
    ("aapl" : String) ≠ "" ∧
    resolveSymbol ⟨[("symbol", "aapl")], "u"⟩ = some "aapl" ∧
    main ⟨[("symbol", "aapl")], "u"⟩ testProvider testClock =
      quoteFor (pyUpper "aapl") testProvider testClock := by
  refine ⟨by decide, by decide, ?_⟩
  exact (c1_theorem ⟨[("symbol", "aapl")], "u"⟩ testProvider testClock).1
    "aapl" (by decide) (by decide)

/-- C2: when no `symbol` query parameter is present, the final path segment is
accepted as the symbol exactly when it is non-empty, purely alphabetic and at
most 5 characters long; and whenever neither method yields a symbol the
handler returns HTTP 400 with the exact documented error body. -/
theorem c2_theorem (req : HttpRequest) (provider : Provider) (clock : Clock) :
    (getParam req "symbol" = none →
      (resolveSymbol req = some (pathSeg req.url) ↔
        pathSeg req.url ≠ "" ∧ (pathSeg req.url).data.all Char.isAlpha = true ∧
          (pathSeg req.url).data.length ≤ 5)) ∧
    (pyTruthy (resolveSymbol req) = false →
      main req provider clock =
        ⟨Body.error
          "Stock symbol parameter is required. Use ?symbol=AAPL or /stock_quote/AAPL",
          400, "application/json"⟩) := by
  constructor
  · intro h
    have h0 : pyTruthy (getParam req "symbol") = false := by rw [h]; rfl
    rw [resolveSymbol_no_query req h0, h, ← acceptsPathSeg_iff]
    by_cases hA : acceptsPathSeg req.url = true
    · simp [hA]
    · simp [hA]
  · intro h
    simp [main, h, missingSymbolBody]

/-- C2 (witness): instantiation at a request with no query parameter and a
path segment that is too long, yielding the exact 400 response. -/
theorem c2_witness :
    getParam ⟨[], "/api/stock_quote/toolong"⟩ "symbol" = none ∧
    pyTruthy (resolveSymbol ⟨[], "/api/stock_quote/toolong"⟩) = false ∧
    main ⟨[], "/api/stock_quote/toolong"⟩ testProvider testClock =
      ⟨Body.error
        "Stock symbol parameter is required. Use ?symbol=AAPL or /stock_quote/AAPL",
        400, "application/json"⟩ := by
  refine ⟨by decide, by decide, ?_⟩
  exact (c2_theorem ⟨[], "/api/stock_quote/toolong"⟩ testProvider testClock).2 (by decide)

/-- C3: for every request with a resolved symbol, a 200 response carries the
upper-cased symbol in its `symbol` field, and a 404 response interpolates the
upper-cased symbol into its error message. -/
theorem c3_theorem (req : HttpRequest) (provider : Provider) (clock : Clock) (s : String)
    (h : resolveSymbol req = some s) (hs : s ≠ "") :
    ((main req provider clock).status_code = 200 →
      ∃ d p t, (main req provider clock).body = Body.quote d p (pyUpper s) t) ∧
    ((main req provider clock).status_code = 404 →
      (main req provider clock).body =
        Body.error ("Could not retrieve price for symbol " ++ pyUpper s)) := by
  rw [main_resolved req provider clock s h hs]
  unfold quoteFor
  cases hp : provider (pyUpper s) with
  | error e => simp
  | ok info =>
    cases ho : pyOrPrice info.currentPrice info.regularMarketPrice with
    | none => simp [ho, notFoundBody]
    | some v =>
      simp only [ho]
      refine ⟨fun _ => ⟨clock.date, round2 v, clock.time, rfl⟩, fun hc => ?_⟩
      simp at hc

/-- C3 (witness): instantiation at a lower-case query parameter and a provider
that returns a price; the 200 body carries the upper-cased symbol. -/
theorem c3_witness :
    resolveSymbol ⟨[("symbol", "aapl")], "u"⟩ = some "aapl" ∧
    ("aapl" : String) ≠ "" ∧
    (∃ d p t, (main ⟨[("symbol", "aapl")], "u"⟩ testProvider testClock).body =
      Body.quote d p (pyUpper "aapl") t) := by
  refine ⟨by decide, by decide, ?_⟩
  exact (c3_theorem ⟨[("symbol", "aapl")], "u"⟩ testProvider testClock
    "aapl" (by decide) (by decide)).1 (by decide)

/-- C4 (counterexample): a provider result whose primary field `currentPrice`
is present with value `0` and whose fallback `regularMarketPrice` is `5`
produces a 200 response whose price is taken from the fallback, because
Python's `or` treats `0` as falsy; so presence of the primary field alone does
not make the returned price derive from it. -/
theorem c4_counterexample :
    (⟨some 0, some 5⟩ : TickerInfo).currentPrice = some 0 ∧
    main ⟨[("symbol", "AAPL")], "u"⟩ (okProvider ⟨some 0, some 5⟩) testClock =
      ⟨Body.quote "2026-01-01" 5 "AAPL" 100, 200, "application/json"⟩ ∧
    round2 0 ≠ (5 : ℚ) := by
  refine ⟨rfl, by decide, by decide⟩

/-- C4 (amended): price resolution prefers the primary `currentPrice` field
and falls back to `regularMarketPrice` only when the primary is absent or
zero: for every provider result in which the primary field is present with a
nonzero value, the 200 response's price is derived from that field. -/
theorem c4_theorem (sym : String) (info : TickerInfo) (clock : Clock) (v : ℚ)
    (h : info.currentPrice = some v) (hv : v ≠ 0) :
    quoteFor sym (okProvider info) clock =
      ⟨Body.quote clock.date (round2 v) sym clock.time, 200, "application/json"⟩ := by
  simp [quoteFor, okProvider, pyOrPrice, h, hv]

/-- C4 (witness): instantiation at a provider result carrying both fields,
with a nonzero primary value. -/
theorem c4_witness :
    (⟨some 7, some 3⟩ : TickerInfo).currentPrice = some 7 ∧ (7 : ℚ) ≠ 0 ∧
    quoteFor "AAPL" (okProvider ⟨some 7, some 3⟩) testClock =
      ⟨Body.quote "2026-01-01" (round2 7) "AAPL" 100, 200, "application/json"⟩ := by
  refine ⟨rfl, by decide, ?_⟩
  exact c4_theorem "AAPL" ⟨some 7, some 3⟩ testClock 7 rfl (by decide)

/-- C5 (counterexample): a provider result whose primary field is present with
value `0` and whose fallback field is absent yields HTTP 404 even though the
primary price field is resolvable, refuting the claimed equivalence. -/
theorem c5_counterexample :
    (⟨some 0, none⟩ : TickerInfo).currentPrice ≠ none ∧
    (main ⟨[("symbol", "AAPL")], "u"⟩ (okProvider ⟨some 0, none⟩) testClock).status_code
      = 404 := by
  refine ⟨by decide, by decide⟩

/-- C5 (amended): for every request with a resolved symbol, the handler
returns HTTP 404 with the interpolated error body exactly when the primary
field is absent or zero and the fallback field is absent (a present fallback,
even zero, yields a 200 response). -/
theorem c5_theorem (req : HttpRequest) (s : String) (info : TickerInfo) (clock : Clock)
    (h : resolveSymbol req = some s) (hs : s ≠ "") :
    ((main req (okProvider info) clock).status_code = 404 ↔
      (info.currentPrice = none ∨ info.currentPrice = some 0) ∧
        info.regularMarketPrice = none) ∧
    ((main req (okProvider info) clock).status_code = 404 →
      (main req (okProvider info) clock).body =
        Body.error ("Could not retrieve price for symbol " ++ pyUpper s)) := by
  rw [main_resolved req (okProvider info) clock s h hs]
  obtain ⟨cp, rp⟩ := info
  cases cp with
  | none =>
    cases rp with
    | none => simp [quoteFor, okProvider, pyOrPrice, notFoundBody]
    | some w => simp [quoteFor, okProvider, pyOrPrice]
  | some v =>
    by_cases hv : v = 0
    · subst hv
      cases rp with
      | none => simp [quoteFor, okProvider, pyOrPrice, notFoundBody]
      | some w => simp [quoteFor, okProvider, pyOrPrice]
    · simp [quoteFor, okProvider, pyOrPrice, hv]

/-- C5 (witness): instantiation at a provider result with both fields absent,
yielding the 404 status. -/
theorem c5_witness :
    resolveSymbol ⟨[("symbol", "aapl")], "u"⟩ = some "aapl" ∧
    ("aapl" : String) ≠ "" ∧
    (main ⟨[("symbol", "aapl")], "u"⟩ (okProvider ⟨none, none⟩) testClock).status_code
      = 404 := by
  refine ⟨by decide, by decide, ?_⟩
  exact (c5_theorem ⟨[("symbol", "aapl")], "u"⟩ "aapl" ⟨none, none⟩ testClock
    (by decide) (by decide)).1.mpr (by decide)

/-- C6: whenever the provider lookup raises — whatever the error message — the
handler returns HTTP 500 with exactly the generic error body; the message
never appears in the response. -/
theorem c6_theorem (req : HttpRequest) (s msg : String) (provider : Provider) (clock : Clock)
    (h : resolveSymbol req = some s) (hs : s ≠ "")
    (hp : provider (pyUpper s) = Except.error msg) :
    main req provider clock =
      ⟨Body.error "Internal server error occurred", 500, "application/json"⟩ := by
  rw [main_resolved req provider clock s h hs]
  simp [quoteFor, hp, internalErrorBody]

/-- C6 (witness): instantiation at a provider that raises with message
`boom`. -/
theorem c6_witness :
    resolveSymbol ⟨[("symbol", "aapl")], "u"⟩ = some "aapl" ∧
    raisingProvider "boom" (pyUpper "aapl") = Except.error "boom" ∧
    main ⟨[("symbol", "aapl")], "u"⟩ (raisingProvider "boom") testClock =
      ⟨Body.error "Internal server error occurred", 500, "application/json"⟩ := by
  refine ⟨by decide, rfl, ?_⟩
  exact c6_theorem ⟨[("symbol", "aapl")], "u"⟩ "aapl" "boom" (raisingProvider "boom")
    testClock (by decide) (by decide) rfl

/-- C7: on a resolvable price the 200 response's price field is the provider
price rounded to 2 decimal places, and in particular a provider price of
`142.3456` rounds to `142.35`. -/
theorem c7_theorem (req : HttpRequest) (s : String) (info : TickerInfo) (clock : Clock) (v : ℚ)
    (h : resolveSymbol req = some s) (hs : s ≠ "")
    (hp : pyOrPrice info.currentPrice info.regularMarketPrice = some v) :
    (main req (okProvider info) clock).body =
      Body.quote clock.date (round2 v) (pyUpper s) clock.time ∧
    round2 (mkRat 1423456 10000) = mkRat 14235 100 := by
  rw [main_resolved req (okProvider info) clock s h hs]
  exact ⟨by simp [quoteFor, okProvider, hp], by decide⟩

/-- C7 (witness): instantiation at the provider price `142.3456`. -/
theorem c7_witness :
    resolveSymbol ⟨[("symbol", "aapl")], "u"⟩ = some "aapl" ∧
    pyOrPrice (some (mkRat 1423456 10000)) none = some (mkRat 1423456 10000) ∧
    ((main ⟨[("symbol", "aapl")], "u"⟩
        (okProvider ⟨some (mkRat 1423456 10000), none⟩) testClock).body =
      Body.quote testClock.date (round2 (mkRat 1423456 10000)) (pyUpper "aapl")
        testClock.time ∧
      round2 (mkRat 1423456 10000) = mkRat 14235 100) := by
  refine ⟨by decide, by decide, ?_⟩
  exact c7_theorem ⟨[("symbol", "aapl")], "u"⟩ "aapl" ⟨some (mkRat 1423456 10000), none⟩
    testClock (mkRat 1423456 10000) (by decide) (by decide) (by decide)

/-- C8: for every request, provider behaviour and clock, the response status
is one of 200, 400, 404, 500, the mimetype is `application/json`, a 200
response carries the quote payload and every other response carries an error
payload. -/
theorem c8_theorem (req : HttpRequest) (provider : Provider) (clock : Clock) :
    ((main req provider clock).status_code = 200 ∨
      (main req provider clock).status_code = 400 ∨
      (main req provider clock).status_code = 404 ∨
      (main req provider clock).status_code = 500) ∧
    (main req provider clock).mimetype = "application/json" ∧
    ((main req provider clock).status_code = 200 →
      ∃ d p sym t, (main req provider clock).body = Body.quote d p sym t) ∧
    ((main req provider clock).status_code ≠ 200 →
      ∃ m, (main req provider clock).body = Body.error m) := by
  simp only [main, quoteFor]
  cases hres : pyTruthy (resolveSymbol req) with
  | false => simp [missingSymbolBody]
  | true =>
    cases hp : provider (pyUpper ((resolveSymbol req).getD "")) with
    | error e => simp [internalErrorBody]
    | ok info =>
      cases ho : pyOrPrice info.currentPrice info.regularMarketPrice with
      | none => simp [ho, notFoundBody]
      | some v => simp [ho]

/-- C8 (witness): instantiation at a concrete request and provider. -/
theorem c8_witness :
    (main ⟨[], ""⟩ testProvider testClock).mimetype = "application/json" :=
  (c8_theorem ⟨[], ""⟩ testProvider testClock).2.1

/-- C9: a request whose `symbol` query parameter is present with the empty
value behaves exactly like the same request with no query parameters at all,
and when in addition the final path segment is not acceptable the handler
returns HTTP 400 with the documented error body. -/
theorem c9_theorem (req : HttpRequest) (provider : Provider) (clock : Clock)
    (h : getParam req "symbol" = some "") :
    main req provider clock = main ⟨[], req.url⟩ provider clock ∧
    (acceptsPathSeg req.url = false →
      main req provider clock =
        ⟨Body.error
          "Stock symbol parameter is required. Use ?symbol=AAPL or /stock_quote/AAPL",
          400, "application/json"⟩) := by
  have h0 : pyTruthy (getParam req "symbol") = false := by rw [h]; rfl
  have h1 : getParam ⟨[], req.url⟩ "symbol" = none := rfl
  have h2 : pyTruthy (getParam (⟨[], req.url⟩ : HttpRequest) "symbol") = false := by
    rw [h1]; rfl
  have r1 := resolveSymbol_no_query req h0
  have r2 := resolveSymbol_no_query ⟨[], req.url⟩ h2
  cases hA : acceptsPathSeg req.url with
  | true =>
    have hne : pathSeg req.url ≠ "" := ((acceptsPathSeg_iff req.url).mp hA).1
    have r1x : resolveSymbol req = some (pathSeg req.url) := by simp [r1, hA]
    have r2x : resolveSymbol ⟨[], req.url⟩ = some (pathSeg req.url) := by
      simpa [hA] using r2
    rw [main_resolved req provider clock _ r1x hne,
      main_resolved ⟨[], req.url⟩ provider clock _ r2x hne]
    exact ⟨rfl, fun hF => by simp at hF⟩
  | false =>
    have hpt : pyTruthy (some "") = false := by decide
    have r1x : resolveSymbol req = some "" := by simp [r1, hA, h]
    have r2x : resolveSymbol ⟨[], req.url⟩ = none := by simpa [hA] using r2
    constructor
    · simp [main, r1x, r2x, hpt, pyTruthy]
    · intro _
      simp [main, r1x, hpt, missingSymbolBody]

/-- C9 (witness): instantiation at a request with an empty query-parameter
value and a non-alphabetic path segment, yielding the 400 response. -/
theorem c9_witness :
    getParam ⟨[("symbol", "")], "/x/123"⟩ "symbol" = some "" ∧
    acceptsPathSeg "/x/123" = false ∧
    main ⟨[("symbol", "")], "/x/123"⟩ testProvider testClock =
      ⟨Body.error
        "Stock symbol parameter is required. Use ?symbol=AAPL or /stock_quote/AAPL",
        400, "application/json"⟩ := by
  refine ⟨by decide, by decide, ?_⟩
  exact (c9_theorem ⟨[("symbol", "")], "/x/123"⟩ testProvider testClock (by decide)).2
    (by decide)

/-- C10: every non-empty value of the `symbol` query parameter — digits,
punctuation or over-long strings included — is accepted without validation,
upper-cased, and handed to the provider lookup. -/
theorem c10_theorem (req : HttpRequest) (provider : Provider) (clock : Clock) (v : String)
    (h : getParam req "symbol" = some v) (hv : v ≠ "") :
    main req provider clock = quoteFor (pyUpper v) provider clock :=
  main_resolved req provider clock v (resolveSymbol_query req v h hv) hv

/-- C10 (witness): instantiation at a query-parameter value containing digits
and punctuation and longer than 5 characters. -/
theorem c10_witness :
    getParam ⟨[("symbol", "brk.b123!")], "u"⟩ "symbol" = some "brk.b123!" ∧
    ("brk.b123!" : String) ≠ "" ∧
    main ⟨[("symbol", "brk.b123!")], "u"⟩ testProvider testClock =
      quoteFor (pyUpper "brk.b123!") testProvider testClock := by
  refine ⟨by decide, by decide, ?_⟩
  exact c10_theorem ⟨[("symbol", "brk.b123!")], "u"⟩ testProvider testClock "brk.b123!"
    (by decide) (by decide)

end StockQuote
